import Mathlib

/-!
Verification of the splash-can Vulkan engine (crates `engine` and `paint-app`)
against its natural-language specification.

The development shallowly embeds the relevant parts of the source:

* `src/engine/src/lib.rs` — device selection (`pick_physical_device`),
  logical-device/queue creation (`create_device`), swapchain construction
  (`create_swapchain`), command-buffer recording (`create_command_buffers`),
  synchronization objects (`create_sync_objects`), the render tick
  (`draw_frame`) and teardown (`Drop for VulkanEngine`);
* `src/engine/src/pipeline.rs` — `create_graphics_pipeline`;
* `src/paint-app/src/main.rs` — the `VALIDATION_LAYERS` toggle parsing.

Vulkan handles are modelled as small inductive or structure types; `u32`
values that stay far from overflow are `Nat` (the single place the `u32`
range matters — the `u32::MAX` extent sentinel — is modelled explicitly).
Fallible code returns `Except`/`Option`; process-aborting `panic!`/`expect`
failures become `Except.error`/`none`.
-/

/-! ## Basic Vulkan value types -/

/-- A 2-D extent, mirroring `vk::Extent2D` (fields `width`, `height`). -/
structure Extent2D where
  width : Nat
  height : Nat
deriving DecidableEq, Repr

/-- The `u32::MAX` sentinel used by `create_swapchain` for an undefined
surface extent. -/
def U32_MAX : Nat := 4294967295

/-- Image formats: the ones the source mentions, plus a catch-all code. -/
inductive VkFormat
  | undefined
  | B8G8R8A8_SRGB
  | R8G8B8A8_SRGB
  | otherFormat (code : Nat)
deriving DecidableEq, Repr

/-- Color spaces (`vk::ColorSpaceKHR`); `SRGB_NONLINEAR` has code 0 and is
therefore the zero-initialised default of a create-info struct. -/
inductive ColorSpaceKHR
  | SRGB_NONLINEAR
  | otherColorSpace (code : Nat)
deriving DecidableEq, Repr

/-- A surface format pair, mirroring `vk::SurfaceFormatKHR`. -/
structure SurfaceFormatKHR where
  format : VkFormat
  color_space : ColorSpaceKHR
deriving DecidableEq, Repr

/-- Present modes (`vk::PresentModeKHR`); `immediate` has code 0 and is the
zero-initialised default. -/
inductive PresentModeKHR
  | immediate
  | mailbox
  | fifo
  | fifoRelaxed
deriving DecidableEq, Repr

/-- Surface capabilities, mirroring the fields of
`vk::SurfaceCapabilitiesKHR` the source reads. -/
structure SurfaceCapabilities where
  min_image_count : Nat
  max_image_count : Nat
  current_extent : Extent2D
deriving DecidableEq, Repr

/-! ## Swapchain construction (`create_swapchain`, lib.rs 327–393) -/

/-- Image-count policy of `create_swapchain` (lib.rs 347–352):
`min_image_count + 1`, overwritten by `max_image_count` when
`max_image_count > 0` bounds it. -/
def desired_image_count (caps : SurfaceCapabilities) : Nat :=
  let desired := caps.min_image_count + 1
  if caps.max_image_count > 0 ∧ desired > caps.max_image_count then
    caps.max_image_count
  else
    desired

/-- Surface-format selection of `create_swapchain` (lib.rs 337–343): start
from the first reported format, then overwrite with every entry equal to
`{B8G8R8A8_SRGB, SRGB_NONLINEAR}`; `none` models the `first().unwrap()`
panic on an empty list. -/
def choose_surface_format (formats : List SurfaceFormatKHR) : Option SurfaceFormatKHR :=
  match formats with
  | [] => none
  | f0 :: _ =>
    some (formats.foldl
      (fun acc sf =>
        if sf.format = VkFormat.B8G8R8A8_SRGB ∧ sf.color_space = ColorSpaceKHR.SRGB_NONLINEAR
        then sf else acc)
      f0)

/-- Present-mode selection of `create_swapchain` (lib.rs 354–358):
`find(== MAILBOX).unwrap_or(FIFO)`. -/
def choose_present_mode (modes : List PresentModeKHR) : PresentModeKHR :=
  (modes.find? (fun m => m == PresentModeKHR.mailbox)).getD PresentModeKHR.fifo

/-- The fields of `vk::SwapchainCreateInfoKHR` that matter here: the ones
the builder in lib.rs 361–370 sets, plus `image_extent`, which it never
sets. -/
structure SwapchainCreateInfoKHR where
  min_image_count : Nat
  image_format : VkFormat
  image_color_space : ColorSpaceKHR
  image_extent : Extent2D
  image_array_layers : Nat
  image_usage_color_attachment : Bool
  sharing_mode_exclusive : Bool
  present_mode : PresentModeKHR
  clipped : Bool
deriving DecidableEq, Repr

/-- The zero-initialised create info an `ash` builder starts from: every
field is the type's zero value. -/
def SwapchainCreateInfoKHR.zeroInit : SwapchainCreateInfoKHR :=
  { min_image_count := 0
    image_format := VkFormat.undefined
    image_color_space := ColorSpaceKHR.SRGB_NONLINEAR
    image_extent := ⟨0, 0⟩
    image_array_layers := 0
    image_usage_color_attachment := false
    sharing_mode_exclusive := false
    present_mode := PresentModeKHR.immediate
    clipped := false }

/-- Extent resolution of `create_swapchain` (lib.rs 377–383): the window's
logical size when `current_extent.width` is the `u32::MAX` sentinel,
otherwise the reported extent verbatim. -/
def resolve_extent (caps : SurfaceCapabilities) (width height : Nat) : Extent2D :=
  if caps.current_extent.width = U32_MAX then ⟨width, height⟩
  else caps.current_extent

/-- The observable outcome of `create_swapchain`: the create info passed to
`vkCreateSwapchainKHR` and the `swapchain_extent` stored in the bundle. -/
structure SwapchainBundle where
  create_info : SwapchainCreateInfoKHR
  swapchain_format : VkFormat
  swapchain_extent : Extent2D
deriving DecidableEq, Repr

/-- `create_swapchain` (lib.rs 327–393): chooses format, image count and
present mode, builds the create info (never setting `image_extent`), and
only afterwards resolves the extent stored in the bundle. -/
def create_swapchain (formats : List SurfaceFormatKHR) (modes : List PresentModeKHR)
    (caps : SurfaceCapabilities) (width height : Nat) : Option SwapchainBundle :=
  match choose_surface_format formats with
  | none => none
  | some sf =>
    let ci : SwapchainCreateInfoKHR :=
      { SwapchainCreateInfoKHR.zeroInit with
          min_image_count := desired_image_count caps
          image_color_space := sf.color_space
          image_format := sf.format
          image_usage_color_attachment := true
          sharing_mode_exclusive := true
          present_mode := choose_present_mode modes
          clipped := true
          image_array_layers := 1 }
    some
      { create_info := ci
        swapchain_format := sf.format
        swapchain_extent := resolve_extent caps width height }

/-! ## Validation toggle (`paint-app/src/main.rs` 8–16) -/

/-- Parsing of the `VALIDATION_LAYERS` environment variable in `main`
(main.rs 9–16): a missing variable defaults to `"0"`, `"1"` enables,
`"0"` disables, anything else panics. -/
def parse_validation_toggle (env_value : Option String) : Except String Bool :=
  let value := env_value.getD "0"
  if value = "1" then Except.ok true
  else if value = "0" then Except.ok false
  else Except.error "Wrong value for VALIDATION_LAYERS environmental value"

/-! ## Physical-device selection (`pick_physical_device`, lib.rs 199–258) -/

/-- Physical device types (`vk::PhysicalDeviceType`). -/
inductive PhysicalDeviceType
  | otherType
  | integratedGpu
  | discreteGpu
  | virtualGpu
  | cpuType
deriving DecidableEq, Repr

/-- One queue family as the selector observes it: its `GRAPHICS` flag and
the result of `get_physical_device_surface_support` for this family on the
target surface. -/
structure QueueFamily where
  supportsGraphics : Bool
  supportsSurface : Bool
deriving DecidableEq, Repr

/-- A physical device as the selector observes it. `handle` is an opaque
identity distinguishing devices in the enumeration. -/
structure PhysicalDevice where
  handle : Nat
  deviceType : PhysicalDeviceType
  queueFamilies : List QueueFamily
deriving DecidableEq, Repr

/-- The `supports_graphic_and_surface` predicate of lib.rs 224–233. -/
def supportsGraphicAndSurface (f : QueueFamily) : Bool :=
  f.supportsGraphics && f.supportsSurface

/-- The inner `filter_map … .nth(0)` over one device's queue families
(lib.rs 221–246), with the `integrated_device` side effect threaded
explicitly.  Returns the first discrete hit (which stops the scan) and the
updated `integrated_device` register (overwritten by every qualifying
family of an integrated device). -/
def scanQueueFamilies (dt : PhysicalDeviceType) (handle : Nat) (idx : Nat)
    (fams : List QueueFamily) (integrated : Option (Nat × Nat)) :
    Option (Nat × Nat) × Option (Nat × Nat) :=
  match fams with
  | [] => (none, integrated)
  | f :: rest =>
    if supportsGraphicAndSurface f then
      match dt with
      | PhysicalDeviceType.discreteGpu => (some (idx, handle), integrated)
      | PhysicalDeviceType.integratedGpu =>
        scanQueueFamilies dt handle (idx + 1) rest (some (idx, handle))
      | _ => scanQueueFamilies dt handle (idx + 1) rest integrated
    else scanQueueFamilies dt handle (idx + 1) rest integrated

/-- The outer `map … .filter_map(|v| v).nth(0)` over the device list
(lib.rs 209–249): devices are scanned in order until one yields a discrete
hit; the `integrated_device` register threads through the scan. -/
def scanDevices (devs : List PhysicalDevice) (integrated : Option (Nat × Nat)) :
    Option (Nat × Nat) × Option (Nat × Nat) :=
  match devs with
  | [] => (none, integrated)
  | d :: rest =>
    match scanQueueFamilies d.deviceType d.handle 0 d.queueFamilies integrated with
    | (some r, integ2) => (some r, integ2)
    | (none, integ2) => scanDevices rest integ2

/-- `pick_physical_device` (lib.rs 199–258): panic on an empty enumeration,
otherwise the first discrete hit, otherwise the `integrated_device`
register, otherwise panic.  The result is `(queue_family_index, handle)`. -/
def pick_physical_device (devs : List PhysicalDevice) : Except String (Nat × Nat) :=
  if devs.length = 0 then Except.error "No suitable physical device found!"
  else
    match scanDevices devs none with
    | (some r, _) => Except.ok r
    | (none, some r) => Except.ok r
    | (none, none) => Except.error "No suitable device found"

/-- Modelled from the spec: the index of the first queue family (counting
from `idx`) that supports graphics and presentation — the spec's
"first matching queue family index per device". -/
def firstQualIdxFrom (idx : Nat) : List QueueFamily → Option Nat
  | [] => none
  | f :: rest =>
    if supportsGraphicAndSurface f then some idx
    else firstQualIdxFrom (idx + 1) rest

/-- Modelled from the spec: the spec's discrete-GPU policy — the first
device in enumeration order that is a discrete GPU and has a qualifying
queue family, paired with its first qualifying family index. -/
def firstDiscreteChoice : List PhysicalDevice → Option (Nat × Nat)
  | [] => none
  | d :: rest =>
    match d.deviceType, firstQualIdxFrom 0 d.queueFamilies with
    | PhysicalDeviceType.discreteGpu, some i => some (i, d.handle)
    | _, _ => firstDiscreteChoice rest

/-- All qualifying `(family_index, handle)` pairs of one device, indices
counted from `idx`. -/
def qualifyingPairsFrom (handle idx : Nat) : List QueueFamily → List (Nat × Nat)
  | [] => []
  | f :: rest =>
    if supportsGraphicAndSurface f then
      (idx, handle) :: qualifyingPairsFrom handle (idx + 1) rest
    else qualifyingPairsFrom handle (idx + 1) rest

/-- All qualifying pairs of all integrated devices, in enumeration order. -/
def integratedQualifyingPairs : List PhysicalDevice → List (Nat × Nat)
  | [] => []
  | d :: rest =>
    (match d.deviceType with
     | PhysicalDeviceType.integratedGpu => qualifyingPairsFrom d.handle 0 d.queueFamilies
     | _ => []) ++ integratedQualifyingPairs rest

/-- The value left in a one-cell register after writing every element of
`l` in order, starting from `acc`. -/
def lastWrite : List α → Option α → Option α
  | [], acc => acc
  | x :: xs, _ => lastWrite xs (some x)

/-- The integrated fallback the code actually computes: the last qualifying
pair of the last qualifying integrated device in enumeration order. -/
def lastIntegratedChoice (devs : List PhysicalDevice) : Option (Nat × Nat) :=
  lastWrite (integratedQualifyingPairs devs) none

/-! ## Graphics pipeline (`create_graphics_pipeline`, pipeline.rs 5–106) -/

/-- Dynamic-state identifiers (`vk::DynamicState`). -/
inductive DynamicState
  | viewport
  | scissor
  | lineWidth
deriving DecidableEq, Repr

/-- Shader stages used by the pipeline. -/
inductive ShaderStageFlag
  | vertex
  | fragment
deriving DecidableEq, Repr

/-- Primitive topologies. -/
inductive PrimitiveTopology
  | pointList
  | triangleList
  | triangleStrip
deriving DecidableEq, Repr

/-- Polygon rasterization modes. -/
inductive PolygonMode
  | fill
  | line
deriving DecidableEq, Repr

/-- Face culling modes. -/
inductive CullModeFlags
  | noCulling
  | front
  | back
deriving DecidableEq, Repr

/-- Front-face winding orders. -/
inductive FrontFace
  | counterClockwise
  | clockwise
deriving DecidableEq, Repr

/-- The fixed-function description `create_graphics_pipeline` submits:
stages, input assembly, static viewport/scissor arrays, rasterization,
blending and the dynamic-state list. -/
structure PipelineDescription where
  stages : List ShaderStageFlag
  vertex_binding_count : Nat
  topology : PrimitiveTopology
  primitive_restart_enable : Bool
  viewport_extent : Extent2D
  scissor_extent : Extent2D
  polygon_mode : PolygonMode
  cull_mode : CullModeFlags
  front_face : FrontFace
  blend_enable : Bool
  dynamic_states : List DynamicState
deriving DecidableEq, Repr

/-- `create_graphics_pipeline` (pipeline.rs 5–106): two stages, no vertex
input bindings, triangle list, a static viewport/scissor sized to the
swapchain extent, fill mode, back-face culling with clockwise front face,
no blending, and dynamic `VIEWPORT` and `SCISSOR` (pipeline.rs 69–72). -/
def create_graphics_pipeline (swapchain_extent : Extent2D) : PipelineDescription :=
  { stages := [ShaderStageFlag.vertex, ShaderStageFlag.fragment]
    vertex_binding_count := 0
    topology := PrimitiveTopology.triangleList
    primitive_restart_enable := false
    viewport_extent := swapchain_extent
    scissor_extent := swapchain_extent
    polygon_mode := PolygonMode.fill
    cull_mode := CullModeFlags.back
    front_face := FrontFace.clockwise
    blend_enable := false
    dynamic_states := [DynamicState.viewport, DynamicState.scissor] }

/-! ## Command recording (`create_command_buffers`, lib.rs 486–549) -/

/-- Pipeline bind points. -/
inductive PipelineBindPoint
  | graphics
  | compute
deriving DecidableEq, Repr

/-- Commands recordable into a command buffer.  The vocabulary includes the
dynamic-state commands `setViewport`/`setScissor` so that their absence
from a recording is expressible. -/
inductive Cmd
  | beginRenderPass (renderArea : Extent2D)
  | bindPipeline (bindPoint : PipelineBindPoint)
  | setViewport (extent : Extent2D)
  | setScissor (extent : Extent2D)
  | draw (vertexCount instanceCount firstVertex firstInstance : Nat)
  | endRenderPass
deriving DecidableEq, Repr

/-- The recording loop body of `create_command_buffers` (lib.rs 504–544):
begin render pass over the swapchain extent, bind the graphics pipeline,
draw 4 vertices / 1 instance, end. -/
def record_command_buffer (swapchain_extent : Extent2D) : List Cmd :=
  [Cmd.beginRenderPass swapchain_extent,
   Cmd.bindPipeline PipelineBindPoint.graphics,
   Cmd.draw 4 1 0 0,
   Cmd.endRenderPass]

/-- `create_command_buffers` (lib.rs 486–549): one identically recorded
buffer per framebuffer. -/
def create_command_buffers (framebufferCount : Nat) (swapchain_extent : Extent2D) :
    List (List Cmd) :=
  (List.range framebufferCount).map (fun _ => record_command_buffer swapchain_extent)

/-- Does a command set the dynamic viewport or scissor? -/
def setsViewportOrScissor : Cmd → Bool
  | Cmd.setViewport _ => true
  | Cmd.setScissor _ => true
  | _ => false

/-! ## Queues and the render loop (`create_device`, `create_sync_objects`,
`draw_frame`; lib.rs 260–308, 551–587, 591–659) -/

/-- A queue handle, identified by the `(family, index)` pair passed to
`get_device_queue`. -/
structure Queue where
  family : Nat
  index : Nat
deriving DecidableEq, Repr

/-- `vkGetDeviceQueue`: the handle for a family/index pair. -/
def get_device_queue (family index : Nat) : Queue := ⟨family, index⟩

/-- The bundle `create_device` returns (lib.rs 300–306). -/
structure DeviceBundle where
  physical_device_index : Nat
  present_queue : Queue
  queue : Queue
deriving DecidableEq, Repr

/-- `create_device` (lib.rs 260–308), starting from the already-selected
queue family index: one queue is fetched at queue index 0 and stored as
both `present_queue` and `queue`. -/
def create_device (queue_index : Nat) : DeviceBundle :=
  let present_queue := get_device_queue queue_index 0
  { physical_device_index := queue_index
    present_queue := present_queue
    queue := present_queue }

/-- `MAX_FRAMES_IN_FLIGHT` (lib.rs 22). -/
def MAX_FRAMES_IN_FLIGHT : Nat := 2

/-- The CPU-visible life stage of an in-flight fence: created in the
signaled state (lib.rs 553–554), reset to unsignaled by `reset_fences`,
armed again by a `queue_submit` that names it. -/
inductive FenceStatus
  | signaledInit
  | unsignaled
  | armed
deriving DecidableEq, Repr

/-- `create_sync_objects` (lib.rs 551–587): `MAX_FRAMES_IN_FLIGHT` fences,
each created with `FenceCreateFlags::SIGNALED`. -/
def create_sync_fences : List FenceStatus :=
  List.replicate MAX_FRAMES_IN_FLIGHT FenceStatus.signaledInit

/-- The mutable state of `VulkanEngine` that `draw_frame` reads and
writes: the two queue handles, `current_frame`, and the per-slot fence
statuses. -/
structure RenderState where
  graphicsQueue : Queue
  presentQueue : Queue
  currentFrame : Nat
  fences : List FenceStatus
deriving DecidableEq, Repr

/-- `VulkanEngine::new` (lib.rs 110–138), restricted to the `draw_frame`-
relevant fields: both queues from `create_device`, fences from
`create_sync_objects`, and `current_frame: 1` (lib.rs 137). -/
def VulkanEngine_new (queue_index : Nat) : RenderState :=
  { graphicsQueue := (create_device queue_index).queue
    presentQueue := (create_device queue_index).present_queue
    currentFrame := 1
    fences := create_sync_fences }

/-- Pipeline stages a submit can wait at. -/
inductive PipelineStageFlags
  | topOfPipe
  | colorAttachmentOutput
  | bottomOfPipe
deriving DecidableEq, Repr

/-- One Vulkan call issued by `draw_frame`, with the arguments the claims
talk about.  Semaphores and fences are named by their per-frame slot.  The
`waitForFences` op records the status the waited fence had at that moment,
so that traces expose what the CPU waited on. -/
inductive FrameOp
  | waitForFences (fenceSlot : Nat) (statusAtWait : FenceStatus)
  | acquireNextImage (imageAvailableSlot : Nat)
  | resetFences (fenceSlot : Nat)
  | queueSubmit (queue : Queue) (waitSemSlot : Nat) (waitStage : PipelineStageFlags)
      (commandBufferIndex : Nat) (signalSemSlot : Nat) (fenceSlot : Nat)
  | queuePresent (queue : Queue) (waitSemSlot : Nat) (imageIndex : Nat)
deriving DecidableEq, Repr

/-- `draw_frame` (lib.rs 591–659).  `imageIndex` is the value
`acquire_next_image` returns (an environment input).  The call sequence is
emitted in source order: wait on slot `current_frame`'s fence, acquire
signaling that slot's image-available semaphore, reset that slot's fence,
submit the acquired image's command buffer to the graphics queue (waiting
on image-available at `COLOR_ATTACHMENT_OUTPUT`, signaling render-finished,
arming the fence), present on the present queue waiting on
render-finished, then advance `current_frame` modulo
`MAX_FRAMES_IN_FLIGHT`. -/
def draw_frame (s : RenderState) (imageIndex : Nat) : List FrameOp × RenderState :=
  let cf := s.currentFrame
  let ops : List FrameOp :=
    [FrameOp.waitForFences cf (s.fences.getD cf FenceStatus.unsignaled),
     FrameOp.acquireNextImage cf,
     FrameOp.resetFences cf,
     FrameOp.queueSubmit s.graphicsQueue cf PipelineStageFlags.colorAttachmentOutput
       imageIndex cf cf,
     FrameOp.queuePresent s.presentQueue cf imageIndex]
  (ops,
   { s with
       currentFrame := (cf + 1) % MAX_FRAMES_IN_FLIGHT
       fences := (s.fences.set cf FenceStatus.unsignaled).set cf FenceStatus.armed })

/-- A sequence of `draw_frame` calls, one per acquired image index,
concatenating the emitted Vulkan calls. -/
def run (s : RenderState) : List Nat → List FrameOp × RenderState
  | [] => ([], s)
  | img :: rest =>
    let step := draw_frame s img
    let next := run step.2 rest
    (step.1 ++ next.1, next.2)

/-- A `waitForFences` call is safe when the fence it waits on is not in
the reset-but-never-resubmitted state. -/
def fenceWaitSafe : FrameOp → Bool
  | FrameOp.waitForFences _ st => !(st == FenceStatus.unsignaled)
  | _ => true

/-- Does this op target only the given queue (trivially true for ops that
name no queue)? -/
def opQueueIs (q : Queue) : FrameOp → Bool
  | FrameOp.queueSubmit q2 _ _ _ _ _ => q2 == q
  | FrameOp.queuePresent q2 _ _ => q2 == q
  | _ => true

/-! ## Teardown (`Drop for VulkanEngine`, lib.rs 662–700) -/

/-- The GPU objects the engine owns, indexed where several exist. -/
inductive Resource
  | inst
  | debugMessenger
  | surface
  | device
  | swapchain
  | renderPass
  | imageView (i : Nat)
  | pipelineLayout
  | pipeline
  | framebuffer (i : Nat)
  | commandPool
  | imageAvailableSemaphore (i : Nat)
  | renderFinishedSemaphore (i : Nat)
  | inFlightFence (i : Nat)
deriving DecidableEq, Repr

/-- One action of the `Drop` implementation. -/
inductive DropAction
  | deviceWaitIdle
  | destroy (r : Resource)
deriving DecidableEq, Repr

/-- The per-slot sync-object destruction loop (lib.rs 667–673), in slot
order: image-available semaphore, render-finished semaphore, fence. -/
def syncDestroyActions : List DropAction :=
  (List.range MAX_FRAMES_IN_FLIGHT).flatMap (fun i =>
    [DropAction.destroy (Resource.imageAvailableSemaphore i),
     DropAction.destroy (Resource.renderFinishedSemaphore i),
     DropAction.destroy (Resource.inFlightFence i)])

/-- The framebuffer destruction loop (lib.rs 677–679), in image order. -/
def framebufferDestroyActions (nImages : Nat) : List DropAction :=
  (List.range nImages).map (fun i => DropAction.destroy (Resource.framebuffer i))

/-- The image-view destruction loop (lib.rs 685–687), in image order. -/
def imageViewDestroyActions (nImages : Nat) : List DropAction :=
  (List.range nImages).map (fun i => DropAction.destroy (Resource.imageView i))

/-- The conditional messenger destruction (lib.rs 693–696). -/
def messengerDestroyActions (validationEnabled : Bool) : List DropAction :=
  if validationEnabled then [DropAction.destroy Resource.debugMessenger] else []

/-- `Drop for VulkanEngine` (lib.rs 662–700), for a swapchain with
`nImages` images: idle-wait, then the destruction sequence in source
order. -/
def dropActions (nImages : Nat) (validationEnabled : Bool) : List DropAction :=
  [DropAction.deviceWaitIdle]
    ++ syncDestroyActions
    ++ [DropAction.destroy Resource.commandPool]
    ++ framebufferDestroyActions nImages
    ++ [DropAction.destroy Resource.pipeline,
        DropAction.destroy Resource.pipelineLayout,
        DropAction.destroy Resource.renderPass]
    ++ imageViewDestroyActions nImages
    ++ [DropAction.destroy Resource.swapchain,
        DropAction.destroy Resource.device,
        DropAction.destroy Resource.surface]
    ++ messengerDestroyActions validationEnabled
    ++ [DropAction.destroy Resource.inst]

/-- The creation order of `VulkanEngine::new` (lib.rs 55–139) over the
same resources: instance, debug messenger (when enabled), surface, logical
device, swapchain, render pass, image views, pipeline layout, pipeline,
framebuffers, command pool, then per-slot sync objects. -/
def creationOrder (nImages : Nat) (validationEnabled : Bool) : List Resource :=
  [Resource.inst]
    ++ (if validationEnabled then [Resource.debugMessenger] else [])
    ++ [Resource.surface, Resource.device, Resource.swapchain, Resource.renderPass]
    ++ (List.range nImages).map Resource.imageView
    ++ [Resource.pipelineLayout, Resource.pipeline]
    ++ (List.range nImages).map Resource.framebuffer
    ++ [Resource.commandPool]
    ++ (List.range MAX_FRAMES_IN_FLIGHT).flatMap (fun i =>
         [Resource.imageAvailableSemaphore i,
          Resource.renderFinishedSemaphore i,
          Resource.inFlightFence i])

/-- Resource `a` is destroyed strictly before resource `b` in the action
list: the list splits with `a`'s destruction in the left part and `b`'s in
the right. -/
def destroysBefore (acts : List DropAction) (a b : Resource) : Prop :=
  ∃ l1 l2, acts = l1 ++ l2 ∧ DropAction.destroy a ∈ l1 ∧ DropAction.destroy b ∈ l2

/-- The direct reference dependencies between the engine's resources as
this code creates them: `DependsOn a b` means `a` holds a reference to
`b`, so `a` must be destroyed first. -/
inductive DependsOn : Resource → Resource → Prop
  | framebuffer_imageView (i : Nat) : DependsOn (Resource.framebuffer i) (Resource.imageView i)
  | framebuffer_renderPass (i : Nat) : DependsOn (Resource.framebuffer i) Resource.renderPass
  | framebuffer_device (i : Nat) : DependsOn (Resource.framebuffer i) Resource.device
  | pipeline_renderPass : DependsOn Resource.pipeline Resource.renderPass
  | pipeline_pipelineLayout : DependsOn Resource.pipeline Resource.pipelineLayout
  | pipeline_device : DependsOn Resource.pipeline Resource.device
  | pipelineLayout_device : DependsOn Resource.pipelineLayout Resource.device
  | renderPass_device : DependsOn Resource.renderPass Resource.device
  | imageView_swapchain (i : Nat) : DependsOn (Resource.imageView i) Resource.swapchain
  | imageView_device (i : Nat) : DependsOn (Resource.imageView i) Resource.device
  | commandPool_device : DependsOn Resource.commandPool Resource.device
  | imageAvailableSemaphore_device (i : Nat) :
      DependsOn (Resource.imageAvailableSemaphore i) Resource.device
  | renderFinishedSemaphore_device (i : Nat) :
      DependsOn (Resource.renderFinishedSemaphore i) Resource.device
  | inFlightFence_device (i : Nat) : DependsOn (Resource.inFlightFence i) Resource.device
  | swapchain_device : DependsOn Resource.swapchain Resource.device
  | swapchain_surface : DependsOn Resource.swapchain Resource.surface
  | device_inst : DependsOn Resource.device Resource.inst
  | surface_inst : DependsOn Resource.surface Resource.inst
  | debugMessenger_inst : DependsOn Resource.debugMessenger Resource.inst

/-! ## C6 — swapchain image count -/

/-- C6: for reported surface capabilities (whose `max_image_count` is 0 or
at least `min_image_count`, as the API guarantees), the desired image
count is `min_image_count + 1` clamped to `max_image_count` when
`max_image_count > 0`, hence lies in `[min_image_count, max_image_count]`
in the bounded case and is at least `min_image_count` in the unbounded
case; `min=2, max=0` yields 3 unclamped. -/
theorem swapchain_image_count_policy (caps : SurfaceCapabilities)
    (hvalid : caps.max_image_count = 0 ∨ caps.min_image_count ≤ caps.max_image_count) :
    (0 < caps.max_image_count →
      desired_image_count caps = min (caps.min_image_count + 1) caps.max_image_count ∧
      caps.min_image_count ≤ desired_image_count caps ∧
      desired_image_count caps ≤ caps.max_image_count) ∧
    (caps.max_image_count = 0 →
      desired_image_count caps = caps.min_image_count + 1 ∧
      caps.min_image_count ≤ desired_image_count caps) ∧
    (caps.min_image_count = 2 → caps.max_image_count = 0 → desired_image_count caps = 3) := by
  simp only [desired_image_count]
  split_ifs with h <;> omega

/-- Witness for C6 at capabilities `min=2, max=0` (scenario B). -/
theorem swapchain_image_count_policy_witness :
    ((⟨2, 0, ⟨0, 0⟩⟩ : SurfaceCapabilities).max_image_count = 0 ∨
      (⟨2, 0, ⟨0, 0⟩⟩ : SurfaceCapabilities).min_image_count ≤
        (⟨2, 0, ⟨0, 0⟩⟩ : SurfaceCapabilities).max_image_count) ∧
    desired_image_count ⟨2, 0, ⟨0, 0⟩⟩ = 3 :=
  ⟨Or.inl rfl, (swapchain_image_count_policy ⟨2, 0, ⟨0, 0⟩⟩ (Or.inl rfl)).2.2 rfl rfl⟩

/-! ## C7 — surface-format selection -/

/-- The format/color-space pair the selection loop prefers. -/
def preferredFormat : SurfaceFormatKHR :=
  ⟨VkFormat.B8G8R8A8_SRGB, ColorSpaceKHR.SRGB_NONLINEAR⟩

lemma foldl_format_select (l : List SurfaceFormatKHR) (a : SurfaceFormatKHR) :
    l.foldl
        (fun acc sf =>
          if sf.format = VkFormat.B8G8R8A8_SRGB ∧ sf.color_space = ColorSpaceKHR.SRGB_NONLINEAR
          then sf else acc) a =
      if preferredFormat ∈ l then preferredFormat else a := by
  induction l generalizing a with
  | nil => simp
  | cons f rest ih =>
    by_cases hf : f.format = VkFormat.B8G8R8A8_SRGB ∧ f.color_space = ColorSpaceKHR.SRGB_NONLINEAR
    · have hfp : f = preferredFormat := by
        obtain ⟨h1, h2⟩ := hf
        cases f
        simp only [preferredFormat]
        simp_all
      subst hfp
      simp [ih, preferredFormat, ite_self]
    · have hfp : preferredFormat ≠ f := by
        intro h
        exact hf (by rw [← h]; exact ⟨rfl, rfl⟩)
      by_cases hm : preferredFormat ∈ rest
      · rw [List.foldl_cons, if_neg hf, ih, if_pos hm, if_pos (List.mem_cons_of_mem f hm)]
      · rw [List.foldl_cons, if_neg hf, ih, if_neg hm, if_neg ?_]
        intro hc
        rcases List.mem_cons.mp hc with h | h
        · exact hfp h
        · exact hm h

/-- C7: for every non-empty format list, the chosen surface format is
`{B8G8R8A8_SRGB, SRGB_NONLINEAR}` whenever that pair is reported, else the
first reported format; scenario A selects the BGRA pair. -/
theorem surface_format_selection (formats : List SurfaceFormatKHR) (hne : formats ≠ []) :
    choose_surface_format formats =
      (if preferredFormat ∈ formats then some preferredFormat else formats.head?) ∧
    choose_surface_format
        [⟨VkFormat.R8G8B8A8_SRGB, ColorSpaceKHR.SRGB_NONLINEAR⟩,
         ⟨VkFormat.B8G8R8A8_SRGB, ColorSpaceKHR.SRGB_NONLINEAR⟩] =
      some ⟨VkFormat.B8G8R8A8_SRGB, ColorSpaceKHR.SRGB_NONLINEAR⟩ := by
  constructor
  · match formats, hne with
    | f0 :: rest, _ =>
      simp only [choose_surface_format, foldl_format_select, List.head?]
      split_ifs <;> rfl
  · decide

/-- Witness for C7 on scenario A's format list. -/
theorem surface_format_selection_witness :
    ([⟨VkFormat.R8G8B8A8_SRGB, ColorSpaceKHR.SRGB_NONLINEAR⟩,
      ⟨VkFormat.B8G8R8A8_SRGB, ColorSpaceKHR.SRGB_NONLINEAR⟩] : List SurfaceFormatKHR) ≠ [] ∧
    choose_surface_format
        [⟨VkFormat.R8G8B8A8_SRGB, ColorSpaceKHR.SRGB_NONLINEAR⟩,
         ⟨VkFormat.B8G8R8A8_SRGB, ColorSpaceKHR.SRGB_NONLINEAR⟩] =
      some preferredFormat :=
  ⟨by decide,
   (surface_format_selection
      [⟨VkFormat.R8G8B8A8_SRGB, ColorSpaceKHR.SRGB_NONLINEAR⟩,
       ⟨VkFormat.B8G8R8A8_SRGB, ColorSpaceKHR.SRGB_NONLINEAR⟩] (by decide)).2⟩

/-! ## C8 — validation toggle -/

/-- C8: the `VALIDATION_LAYERS` value `"1"` enables validation, `"0"`
disables it, and any other value is a fatal configuration error. -/
theorem validation_toggle_policy :
    parse_validation_toggle (some "1") = Except.ok true ∧
    parse_validation_toggle (some "0") = Except.ok false ∧
    ∀ s : String, s ≠ "1" → s ≠ "0" →
      parse_validation_toggle (some s) =
        Except.error "Wrong value for VALIDATION_LAYERS environmental value" := by
  refine ⟨rfl, rfl, ?_⟩
  intro s h1 h0
  simp [parse_validation_toggle, h1, h0]

/-- Witness for C8 at the unrecognized value `"2"`. -/
theorem validation_toggle_policy_witness :
    ("2" : String) ≠ "1" ∧ ("2" : String) ≠ "0" ∧
    parse_validation_toggle (some "2") =
      Except.error "Wrong value for VALIDATION_LAYERS environmental value" :=
  ⟨by decide, by decide, validation_toggle_policy.2.2 "2" (by decide) (by decide)⟩

/-! ## C10 — extent never reaches the swapchain create info -/

/-- C10: for any surface report with at least one format, swapchain
creation succeeds with an `image_extent` still at its zero default
`{0,0}`, while the bundle's resolved extent follows the sentinel rule and
is the value fed to the pipeline's viewport and the recorded render
area. -/
theorem swapchain_extent_not_in_create_info (formats : List SurfaceFormatKHR)
    (modes : List PresentModeKHR) (caps : SurfaceCapabilities) (width height : Nat)
    (hne : formats ≠ []) :
    ∃ bundle, create_swapchain formats modes caps width height = some bundle ∧
      bundle.create_info.image_extent = ⟨0, 0⟩ ∧
      bundle.swapchain_extent =
        (if caps.current_extent.width = U32_MAX then ⟨width, height⟩
         else caps.current_extent) ∧
      (create_graphics_pipeline bundle.swapchain_extent).viewport_extent =
        bundle.swapchain_extent ∧
      (record_command_buffer bundle.swapchain_extent).head? =
        some (Cmd.beginRenderPass bundle.swapchain_extent) := by
  match formats, hne with
  | f0 :: rest, _ =>
    exact ⟨_, rfl, rfl, rfl, rfl, rfl⟩

/-- Witness for C10: one BGRA format, sentinel extent, 800×600 window. -/
theorem swapchain_extent_not_in_create_info_witness :
    ([⟨VkFormat.B8G8R8A8_SRGB, ColorSpaceKHR.SRGB_NONLINEAR⟩] : List SurfaceFormatKHR) ≠ [] ∧
    ∃ bundle,
      create_swapchain [⟨VkFormat.B8G8R8A8_SRGB, ColorSpaceKHR.SRGB_NONLINEAR⟩] []
          ⟨2, 0, ⟨4294967295, 0⟩⟩ 800 600 = some bundle ∧
      bundle.create_info.image_extent = ⟨0, 0⟩ ∧
      bundle.swapchain_extent =
        (if (⟨2, 0, ⟨4294967295, 0⟩⟩ : SurfaceCapabilities).current_extent.width = U32_MAX
         then ⟨800, 600⟩
         else (⟨2, 0, ⟨4294967295, 0⟩⟩ : SurfaceCapabilities).current_extent) ∧
      (create_graphics_pipeline bundle.swapchain_extent).viewport_extent =
        bundle.swapchain_extent ∧
      (record_command_buffer bundle.swapchain_extent).head? =
        some (Cmd.beginRenderPass bundle.swapchain_extent) :=
  ⟨by decide,
   swapchain_extent_not_in_create_info
     [⟨VkFormat.B8G8R8A8_SRGB, ColorSpaceKHR.SRGB_NONLINEAR⟩] []
     ⟨2, 0, ⟨4294967295, 0⟩⟩ 800 600 (by decide)⟩

/-! ## C2 — dynamic viewport/scissor declared but never set -/

/-- C2 (divergence witness): the pipeline declares `VIEWPORT` and
`SCISSOR` dynamic, yet every recorded command buffer issues its draw with
no `setViewport`/`setScissor` anywhere in the recording. -/
theorem dynamic_viewport_scissor_never_set (extent : Extent2D) (framebufferCount : Nat) :
    DynamicState.viewport ∈ (create_graphics_pipeline extent).dynamic_states ∧
    DynamicState.scissor ∈ (create_graphics_pipeline extent).dynamic_states ∧
    ∀ cmds ∈ create_command_buffers framebufferCount extent,
      (∀ c ∈ cmds, setsViewportOrScissor c = false) ∧ Cmd.draw 4 1 0 0 ∈ cmds := by
  refine ⟨by simp [create_graphics_pipeline], by simp [create_graphics_pipeline], ?_⟩
  intro cmds hmem
  unfold create_command_buffers at hmem
  obtain ⟨i, hi, hcm⟩ := List.mem_map.mp hmem
  rw [← hcm]
  constructor
  · intro c hc
    simp only [record_command_buffer, List.mem_cons, List.not_mem_nil, or_false] at hc
    rcases hc with rfl | rfl | rfl | rfl <;> rfl
  · simp [record_command_buffer]

/-- Witness for C2 on a 1-framebuffer swapchain with extent 800×600. -/
theorem dynamic_viewport_scissor_never_set_witness :
    record_command_buffer ⟨800, 600⟩ ∈ create_command_buffers 1 ⟨800, 600⟩ ∧
    (∀ c ∈ record_command_buffer ⟨800, 600⟩, setsViewportOrScissor c = false) ∧
    Cmd.draw 4 1 0 0 ∈ record_command_buffer ⟨800, 600⟩ :=
  ⟨by decide,
   (dynamic_viewport_scissor_never_set ⟨800, 600⟩ 1).2.2 _ (by decide)⟩

/-! ## C5 — the per-tick call sequence of `draw_frame` -/

/-- C5: one `draw_frame` call on slot `i = current_frame mod
MAX_FRAMES_IN_FLIGHT` issues exactly: wait on slot `i`'s fence; acquire
signaling slot `i`'s image-available semaphore; reset slot `i`'s fence;
submit the acquired image's command buffer to the graphics queue waiting
on the image-available semaphore at `COLOR_ATTACHMENT_OUTPUT`, signaling
slot `i`'s render-finished semaphore and arming slot `i`'s fence; present
the acquired image waiting on the render-finished semaphore; and advances
`current_frame` to `(current_frame + 1) mod MAX_FRAMES_IN_FLIGHT`. -/
theorem draw_frame_tick_protocol (s : RenderState) (imageIndex : Nat)
    (h : s.currentFrame < MAX_FRAMES_IN_FLIGHT) :
    draw_frame s imageIndex =
      ([FrameOp.waitForFences (s.currentFrame % MAX_FRAMES_IN_FLIGHT)
          (s.fences.getD (s.currentFrame % MAX_FRAMES_IN_FLIGHT) FenceStatus.unsignaled),
        FrameOp.acquireNextImage (s.currentFrame % MAX_FRAMES_IN_FLIGHT),
        FrameOp.resetFences (s.currentFrame % MAX_FRAMES_IN_FLIGHT),
        FrameOp.queueSubmit s.graphicsQueue (s.currentFrame % MAX_FRAMES_IN_FLIGHT)
          PipelineStageFlags.colorAttachmentOutput imageIndex
          (s.currentFrame % MAX_FRAMES_IN_FLIGHT) (s.currentFrame % MAX_FRAMES_IN_FLIGHT),
        FrameOp.queuePresent s.presentQueue (s.currentFrame % MAX_FRAMES_IN_FLIGHT)
          imageIndex],
       { s with
           currentFrame := (s.currentFrame + 1) % MAX_FRAMES_IN_FLIGHT
           fences :=
             s.fences.set (s.currentFrame % MAX_FRAMES_IN_FLIGHT) FenceStatus.armed }) := by
  have hm : s.currentFrame % MAX_FRAMES_IN_FLIGHT = s.currentFrame := Nat.mod_eq_of_lt h
  rw [hm]
  simp [draw_frame, List.set_set]

/-- Witness for C5: one tick on a fresh engine built over queue family 3,
acquiring image 5. -/
theorem draw_frame_tick_protocol_witness :
    (VulkanEngine_new 3).currentFrame < MAX_FRAMES_IN_FLIGHT ∧
    draw_frame (VulkanEngine_new 3) 5 =
      ([FrameOp.waitForFences 1 FenceStatus.signaledInit,
        FrameOp.acquireNextImage 1,
        FrameOp.resetFences 1,
        FrameOp.queueSubmit ⟨3, 0⟩ 1 PipelineStageFlags.colorAttachmentOutput 5 1 1,
        FrameOp.queuePresent ⟨3, 0⟩ 1 5],
       { graphicsQueue := ⟨3, 0⟩
         presentQueue := ⟨3, 0⟩
         currentFrame := 0
         fences := [FenceStatus.signaledInit, FenceStatus.armed] }) :=
  ⟨by decide, by exact draw_frame_tick_protocol (VulkanEngine_new 3) 5 (by decide)⟩

/-! ## C3 — fences are never CPU-waited while unsignaled and unsubmitted -/

/-- The invariant the render loop maintains over the fence slots: the
fence array has exactly `MAX_FRAMES_IN_FLIGHT` entries, `current_frame`
indexes into it, and no fence is left in the reset-but-unsubmitted
state between ticks. -/
def GoodFences (s : RenderState) : Prop :=
  s.fences.length = MAX_FRAMES_IN_FLIGHT ∧
  s.currentFrame < MAX_FRAMES_IN_FLIGHT ∧
  ∀ st ∈ s.fences, st ≠ FenceStatus.unsignaled

lemma draw_frame_fence_safety (s : RenderState) (img : Nat) (hs : GoodFences s) :
    (∀ op ∈ (draw_frame s img).1, fenceWaitSafe op = true) ∧
    GoodFences (draw_frame s img).2 := by
  obtain ⟨hlen, hcf, hmem⟩ := hs
  have hcf' : s.currentFrame < s.fences.length := by rw [hlen]; exact hcf
  constructor
  · intro op hop
    have hstat : s.fences.getD s.currentFrame FenceStatus.unsignaled ∈ s.fences := by
      rw [List.getD_eq_getElem s.fences FenceStatus.unsignaled hcf']
      exact List.getElem_mem hcf'
    have hne := hmem _ hstat
    simp only [draw_frame, List.mem_cons, List.not_mem_nil, or_false] at hop
    rcases hop with rfl | rfl | rfl | rfl | rfl
    · simpa [fenceWaitSafe, List.getD_eq_getElem?_getD] using hne
    · rfl
    · rfl
    · rfl
    · rfl
  · refine ⟨?_, ?_, ?_⟩
    · simp [draw_frame, hlen]
    · simp only [draw_frame]
      exact Nat.mod_lt _ (by decide)
    · intro st hst
      simp only [draw_frame, List.set_set] at hst
      rcases List.mem_or_eq_of_mem_set hst with h | rfl
      · exact hmem _ h
      · simp

lemma run_fence_safety (imgs : List Nat) :
    ∀ s : RenderState, GoodFences s →
      (∀ op ∈ (run s imgs).1, fenceWaitSafe op = true) ∧ GoodFences (run s imgs).2 := by
  induction imgs with
  | nil =>
    intro s hs
    exact ⟨fun op hop => by simp [run] at hop, hs⟩
  | cons img rest ih =>
    intro s hs
    obtain ⟨h1, h2⟩ := draw_frame_fence_safety s img hs
    obtain ⟨h3, h4⟩ := ih _ h2
    refine ⟨?_, by simpa [run] using h4⟩
    intro op hop
    simp only [run] at hop
    rcases List.mem_append.mp hop with h | h
    · exact h1 op h
    · exact h3 op h

lemma goodFences_new (queue_index : Nat) : GoodFences (VulkanEngine_new queue_index) := by
  refine ⟨rfl, Nat.one_lt_two, ?_⟩
  intro st hst
  have := List.eq_of_mem_replicate hst
  subst this
  simp

/-- C3: in every sequence of `draw_frame` calls from a freshly
constructed engine, no `wait_for_fences` call ever operates on a fence in
the reset-but-never-resubmitted state — every waited fence is either
still create-time signaled or was armed by the submission of its own
slot's previous tick. -/
theorem fences_never_waited_unarmed (queue_index : Nat) (imgs : List Nat) :
    ((run (VulkanEngine_new queue_index) imgs).1.all fenceWaitSafe) = true := by
  rw [List.all_eq_true]
  intro op hop
  exact (run_fence_safety imgs (VulkanEngine_new queue_index)
    (goodFences_new queue_index)).1 op hop

/-! ## C9 — graphics queue and present queue are the same handle -/

lemma run_queue_targets (imgs : List Nat) :
    ∀ (s : RenderState) (q : Queue), s.graphicsQueue = q → s.presentQueue = q →
      ((run s imgs).1.all (opQueueIs q)) = true ∧
      (run s imgs).2.graphicsQueue = q ∧ (run s imgs).2.presentQueue = q := by
  induction imgs with
  | nil =>
    intro s q hg hp
    exact ⟨by simp [run], hg, hp⟩
  | cons img rest ih =>
    intro s q hg hp
    have hg2 : (draw_frame s img).2.graphicsQueue = q := by simp [draw_frame, hg]
    have hp2 : (draw_frame s img).2.presentQueue = q := by simp [draw_frame, hp]
    obtain ⟨h1, h2, h3⟩ := ih (draw_frame s img).2 q hg2 hp2
    refine ⟨?_, by simpa [run] using h2, by simpa [run] using h3⟩
    simp only [run]
    rw [List.all_append]
    have hstep : (draw_frame s img).1.all (opQueueIs q) = true := by
      simp [draw_frame, opQueueIs, hg, hp]
    rw [hstep, h1]
    rfl

/-- C9: `create_device` fetches a single queue at index 0 of the selected
family and stores it as both `queue` and `present_queue`; consequently in
every run every `queue_submit` and every `queue_present` targets that
same handle. -/
theorem graphics_and_present_queue_identical (queue_index : Nat) (imgs : List Nat) :
    (create_device queue_index).queue = (create_device queue_index).present_queue ∧
    (create_device queue_index).queue = get_device_queue queue_index 0 ∧
    ((run (VulkanEngine_new queue_index) imgs).1.all
        (opQueueIs (get_device_queue queue_index 0))) = true := by
  refine ⟨rfl, rfl, ?_⟩
  exact (run_queue_targets imgs (VulkanEngine_new queue_index)
    (get_device_queue queue_index 0) rfl rfl).1

/-! ## C1 — physical-device selection policy -/

lemma scanQueueFamilies_fst (dt : PhysicalDeviceType) (handle : Nat) :
    ∀ (fams : List QueueFamily) (idx : Nat) (acc : Option (Nat × Nat)),
      (scanQueueFamilies dt handle idx fams acc).1 =
        if dt = PhysicalDeviceType.discreteGpu then
          (firstQualIdxFrom idx fams).map (fun i => (i, handle))
        else none := by
  intro fams
  induction fams with
  | nil =>
    intro idx acc
    simp [scanQueueFamilies, firstQualIdxFrom]
  | cons f rest ih =>
    intro idx acc
    by_cases hq : supportsGraphicAndSurface f
    · cases dt <;> simp [scanQueueFamilies, firstQualIdxFrom, hq, ih]
    · cases dt <;> simp [scanQueueFamilies, firstQualIdxFrom, hq, ih]

lemma scanQueueFamilies_snd_of_ne (dt : PhysicalDeviceType) (handle : Nat)
    (hdt : dt ≠ PhysicalDeviceType.integratedGpu) :
    ∀ (fams : List QueueFamily) (idx : Nat) (acc : Option (Nat × Nat)),
      (scanQueueFamilies dt handle idx fams acc).2 = acc := by
  intro fams
  induction fams with
  | nil =>
    intro idx acc
    rfl
  | cons f rest ih =>
    intro idx acc
    by_cases hq : supportsGraphicAndSurface f
    · cases dt with
      | discreteGpu => simp [scanQueueFamilies, hq]
      | integratedGpu => exact absurd rfl hdt
      | otherType => simp [scanQueueFamilies, hq, ih]
      | virtualGpu => simp [scanQueueFamilies, hq, ih]
      | cpuType => simp [scanQueueFamilies, hq, ih]
    · simp [scanQueueFamilies, hq, ih]

lemma scanQueueFamilies_integrated_snd (handle : Nat) :
    ∀ (fams : List QueueFamily) (idx : Nat) (acc : Option (Nat × Nat)),
      (scanQueueFamilies PhysicalDeviceType.integratedGpu handle idx fams acc).2 =
        lastWrite (qualifyingPairsFrom handle idx fams) acc := by
  intro fams
  induction fams with
  | nil =>
    intro idx acc
    rfl
  | cons f rest ih =>
    intro idx acc
    by_cases hq : supportsGraphicAndSurface f
    · simp [scanQueueFamilies, qualifyingPairsFrom, lastWrite, hq, ih]
    · simp [scanQueueFamilies, qualifyingPairsFrom, hq, ih]

lemma scanQueueFamilies_eq_of_ne (dt : PhysicalDeviceType) (handle : Nat)
    (hdt : dt ≠ PhysicalDeviceType.integratedGpu)
    (fams : List QueueFamily) (idx : Nat) (acc : Option (Nat × Nat)) :
    scanQueueFamilies dt handle idx fams acc =
      (if dt = PhysicalDeviceType.discreteGpu then
         (firstQualIdxFrom idx fams).map (fun i => (i, handle))
       else none,
       acc) := by
  have h1 := scanQueueFamilies_fst dt handle fams idx acc
  have h2 := scanQueueFamilies_snd_of_ne dt handle hdt fams idx acc
  rcases hsc : scanQueueFamilies dt handle idx fams acc with ⟨fst, snd⟩
  rw [hsc] at h1 h2
  simp_all

lemma scanQueueFamilies_integrated_eq (handle : Nat) (fams : List QueueFamily)
    (idx : Nat) (acc : Option (Nat × Nat)) :
    scanQueueFamilies PhysicalDeviceType.integratedGpu handle idx fams acc =
      (none, lastWrite (qualifyingPairsFrom handle idx fams) acc) := by
  have h1 := scanQueueFamilies_fst PhysicalDeviceType.integratedGpu handle fams idx acc
  have h2 := scanQueueFamilies_integrated_snd handle fams idx acc
  rcases hsc : scanQueueFamilies PhysicalDeviceType.integratedGpu handle idx fams acc
    with ⟨fst, snd⟩
  rw [hsc] at h1 h2
  simp_all

lemma scanDevices_fst :
    ∀ (devs : List PhysicalDevice) (acc : Option (Nat × Nat)),
      (scanDevices devs acc).1 = firstDiscreteChoice devs := by
  intro devs
  induction devs with
  | nil =>
    intro acc
    rfl
  | cons d rest ih =>
    intro acc
    obtain ⟨hd, dt, qf⟩ := d
    cases dt with
    | discreteGpu =>
      rw [scanDevices, scanQueueFamilies_eq_of_ne PhysicalDeviceType.discreteGpu hd
        (by simp) qf 0 acc]
      cases hfq : firstQualIdxFrom 0 qf with
      | some i => simp [firstDiscreteChoice, hfq]
      | none => simp [firstDiscreteChoice, hfq, ih]
    | integratedGpu =>
      rw [scanDevices, scanQueueFamilies_integrated_eq hd qf 0 acc]
      simp [firstDiscreteChoice, ih]
    | otherType =>
      rw [scanDevices, scanQueueFamilies_eq_of_ne PhysicalDeviceType.otherType hd
        (by simp) qf 0 acc]
      simp [firstDiscreteChoice, ih]
    | virtualGpu =>
      rw [scanDevices, scanQueueFamilies_eq_of_ne PhysicalDeviceType.virtualGpu hd
        (by simp) qf 0 acc]
      simp [firstDiscreteChoice, ih]
    | cpuType =>
      rw [scanDevices, scanQueueFamilies_eq_of_ne PhysicalDeviceType.cpuType hd
        (by simp) qf 0 acc]
      simp [firstDiscreteChoice, ih]

lemma lastWrite_append (l1 l2 : List α) (acc : Option α) :
    lastWrite (l1 ++ l2) acc = lastWrite l2 (lastWrite l1 acc) := by
  induction l1 generalizing acc with
  | nil => rfl
  | cons x xs ih =>
    cases l2 with
    | nil => simp [lastWrite, ih]
    | cons y ys => simp [lastWrite, ih]

lemma scanDevices_snd_of_no_discrete :
    ∀ (devs : List PhysicalDevice) (acc : Option (Nat × Nat)),
      firstDiscreteChoice devs = none →
      scanDevices devs acc = (none, lastWrite (integratedQualifyingPairs devs) acc) := by
  intro devs
  induction devs with
  | nil =>
    intro acc _
    rfl
  | cons d rest ih =>
    intro acc hnone
    obtain ⟨hd, dt, qf⟩ := d
    cases dt with
    | discreteGpu =>
      cases hfq : firstQualIdxFrom 0 qf with
      | some i => simp [firstDiscreteChoice, hfq] at hnone
      | none =>
        have hrest : firstDiscreteChoice rest = none := by
          simpa [firstDiscreteChoice, hfq] using hnone
        rw [scanDevices, scanQueueFamilies_eq_of_ne PhysicalDeviceType.discreteGpu hd
          (by simp) qf 0 acc]
        simp [hfq, hrest, ih, integratedQualifyingPairs]
    | integratedGpu =>
      have hrest : firstDiscreteChoice rest = none := by
        simpa [firstDiscreteChoice] using hnone
      rw [scanDevices, scanQueueFamilies_integrated_eq hd qf 0 acc]
      simp [hrest, ih, integratedQualifyingPairs, lastWrite_append]
    | otherType =>
      have hrest : firstDiscreteChoice rest = none := by
        simpa [firstDiscreteChoice] using hnone
      rw [scanDevices, scanQueueFamilies_eq_of_ne PhysicalDeviceType.otherType hd
        (by simp) qf 0 acc]
      simp [hrest, ih, integratedQualifyingPairs]
    | virtualGpu =>
      have hrest : firstDiscreteChoice rest = none := by
        simpa [firstDiscreteChoice] using hnone
      rw [scanDevices, scanQueueFamilies_eq_of_ne PhysicalDeviceType.virtualGpu hd
        (by simp) qf 0 acc]
      simp [hrest, ih, integratedQualifyingPairs]
    | cpuType =>
      have hrest : firstDiscreteChoice rest = none := by
        simpa [firstDiscreteChoice] using hnone
      rw [scanDevices, scanQueueFamilies_eq_of_ne PhysicalDeviceType.cpuType hd
        (by simp) qf 0 acc]
      simp [hrest, ih, integratedQualifyingPairs]

/-- C1 counterexample: one integrated GPU (handle 7) whose queue families
0 and 1 both qualify.  The claim's "first matching queue family index"
demands `(0, 7)`; the code returns `(1, 7)` because the fallback register
is overwritten by every qualifying family. -/
theorem pick_integrated_fallback_counterexample :
    pick_physical_device
        [⟨7, PhysicalDeviceType.integratedGpu, [⟨true, true⟩, ⟨true, true⟩]⟩] =
      Except.ok (1, 7) ∧
    ((1, 7) : Nat × Nat) ≠ (0, 7) :=
  ⟨rfl, by decide⟩

/-- C1 (amended): selection fails on an empty enumeration; otherwise it
returns the first qualifying queue family of the first discrete GPU in
enumeration order when one exists; otherwise the LAST qualifying family of
the LAST qualifying integrated GPU in enumeration order; otherwise it
fails. -/
theorem pick_physical_device_policy (devs : List PhysicalDevice) :
    pick_physical_device devs =
      if devs.length = 0 then Except.error "No suitable physical device found!"
      else
        match firstDiscreteChoice devs with
        | some r => Except.ok r
        | none =>
          match lastIntegratedChoice devs with
          | some r => Except.ok r
          | none => Except.error "No suitable device found" := by
  unfold pick_physical_device
  by_cases hlen : devs.length = 0
  · simp [hlen]
  · simp only [if_neg hlen]
    cases hfd : firstDiscreteChoice devs with
    | some r =>
      rcases hsc : scanDevices devs none with ⟨fst, snd⟩
      have hfst := scanDevices_fst devs none
      rw [hsc, hfd] at hfst
      simp only at hfst
      subst hfst
      rfl
    | none =>
      rw [scanDevices_snd_of_no_discrete devs none hfd]
      simp only [lastIntegratedChoice]
      cases hlw : lastWrite (integratedQualifyingPairs devs) none <;> rfl

/-! ## C4 — teardown order -/

/-- C4 counterexample: with one swapchain image and validation on, the
actual destruction sequence is not the strict reverse of the creation
sequence (the sync objects are torn down in forward slot order, and the
render pass — created before the image views — is destroyed before
them). -/
theorem drop_not_reverse_creation :
    dropActions 1 true ≠
      DropAction.deviceWaitIdle ::
        (creationOrder 1 true).reverse.map DropAction.destroy := by
  decide

lemma destroysBefore_split (acts l1 l2 : List DropAction) (a b : Resource)
    (hsplit : acts = l1 ++ l2) (ha : DropAction.destroy a ∈ l1)
    (hb : DropAction.destroy b ∈ l2) : destroysBefore acts a b :=
  ⟨l1, l2, hsplit, ha, hb⟩

/-- The destroy actions strictly before the device's destruction. -/
def preDeviceDestroys (nImages : Nat) : List DropAction :=
  [DropAction.deviceWaitIdle]
    ++ syncDestroyActions
    ++ [DropAction.destroy Resource.commandPool]
    ++ framebufferDestroyActions nImages
    ++ [DropAction.destroy Resource.pipeline,
        DropAction.destroy Resource.pipelineLayout,
        DropAction.destroy Resource.renderPass]
    ++ imageViewDestroyActions nImages
    ++ [DropAction.destroy Resource.swapchain]

lemma dropActions_device_split (nImages : Nat) (validationEnabled : Bool) :
    dropActions nImages validationEnabled =
      preDeviceDestroys nImages
        ++ ([DropAction.destroy Resource.device, DropAction.destroy Resource.surface]
            ++ messengerDestroyActions validationEnabled
            ++ [DropAction.destroy Resource.inst]) := by
  simp [dropActions, preDeviceDestroys, List.append_assoc]

lemma mem_bound_framebuffer {n : Nat} {v : Bool} {i : Nat}
    (h : DropAction.destroy (Resource.framebuffer i) ∈ dropActions n v) : i < n := by
  cases v <;>
    simpa [dropActions, syncDestroyActions, framebufferDestroyActions,
      imageViewDestroyActions, messengerDestroyActions] using h

lemma mem_bound_imageView {n : Nat} {v : Bool} {i : Nat}
    (h : DropAction.destroy (Resource.imageView i) ∈ dropActions n v) : i < n := by
  cases v <;>
    simpa [dropActions, syncDestroyActions, framebufferDestroyActions,
      imageViewDestroyActions, messengerDestroyActions] using h

lemma mem_bound_iaSem {n : Nat} {v : Bool} {i : Nat}
    (h : DropAction.destroy (Resource.imageAvailableSemaphore i) ∈ dropActions n v) :
    i < MAX_FRAMES_IN_FLIGHT := by
  cases v <;>
    simpa [dropActions, syncDestroyActions, framebufferDestroyActions,
      imageViewDestroyActions, messengerDestroyActions] using h

lemma mem_bound_rfSem {n : Nat} {v : Bool} {i : Nat}
    (h : DropAction.destroy (Resource.renderFinishedSemaphore i) ∈ dropActions n v) :
    i < MAX_FRAMES_IN_FLIGHT := by
  cases v <;>
    simpa [dropActions, syncDestroyActions, framebufferDestroyActions,
      imageViewDestroyActions, messengerDestroyActions] using h

lemma mem_bound_fence {n : Nat} {v : Bool} {i : Nat}
    (h : DropAction.destroy (Resource.inFlightFence i) ∈ dropActions n v) :
    i < MAX_FRAMES_IN_FLIGHT := by
  cases v <;>
    simpa [dropActions, syncDestroyActions, framebufferDestroyActions,
      imageViewDestroyActions, messengerDestroyActions] using h

lemma mem_messenger_validation {n : Nat} {v : Bool}
    (h : DropAction.destroy Resource.debugMessenger ∈ dropActions n v) : v = true := by
  cases v
  · simp [dropActions, syncDestroyActions, framebufferDestroyActions,
      imageViewDestroyActions, messengerDestroyActions] at h
  · rfl

/-- C4 (amended): teardown begins with a full device idle wait and then
destroys in the fixed order sync objects (forward slot order), command
pool, framebuffers, pipeline, pipeline layout, render pass, image views,
swapchain, device, surface, debug messenger (when enabled), instance —
which deviates from the strict reverse of creation (render pass before
image views, forward order inside the loops) but still never destroys a
resource before any resource that references it. -/
theorem drop_order_amended (nImages : Nat) (validationEnabled : Bool) :
    (dropActions nImages validationEnabled).head? = some DropAction.deviceWaitIdle ∧
    dropActions nImages validationEnabled =
      [DropAction.deviceWaitIdle]
        ++ syncDestroyActions
        ++ [DropAction.destroy Resource.commandPool]
        ++ framebufferDestroyActions nImages
        ++ [DropAction.destroy Resource.pipeline,
            DropAction.destroy Resource.pipelineLayout,
            DropAction.destroy Resource.renderPass]
        ++ imageViewDestroyActions nImages
        ++ [DropAction.destroy Resource.swapchain,
            DropAction.destroy Resource.device,
            DropAction.destroy Resource.surface]
        ++ messengerDestroyActions validationEnabled
        ++ [DropAction.destroy Resource.inst] ∧
    ∀ a b : Resource, DependsOn a b →
      DropAction.destroy a ∈ dropActions nImages validationEnabled →
      destroysBefore (dropActions nImages validationEnabled) a b := by
  refine ⟨rfl, rfl, ?_⟩
  intro a b hdep hmem
  cases hdep with
  | framebuffer_imageView i =>
    have hi : i < nImages := mem_bound_framebuffer hmem
    exact destroysBefore_split _
      ([DropAction.deviceWaitIdle] ++ syncDestroyActions
        ++ [DropAction.destroy Resource.commandPool] ++ framebufferDestroyActions nImages
        ++ [DropAction.destroy Resource.pipeline, DropAction.destroy Resource.pipelineLayout,
            DropAction.destroy Resource.renderPass])
      (imageViewDestroyActions nImages
        ++ [DropAction.destroy Resource.swapchain, DropAction.destroy Resource.device,
            DropAction.destroy Resource.surface]
        ++ messengerDestroyActions validationEnabled
        ++ [DropAction.destroy Resource.inst])
      _ _
      (by simp [dropActions, List.append_assoc])
      (by simp [syncDestroyActions, framebufferDestroyActions]; exact hi)
      (by simp [imageViewDestroyActions]; exact Or.inl hi)
  | framebuffer_renderPass i =>
    have hi : i < nImages := mem_bound_framebuffer hmem
    exact destroysBefore_split _
      ([DropAction.deviceWaitIdle] ++ syncDestroyActions
        ++ [DropAction.destroy Resource.commandPool] ++ framebufferDestroyActions nImages)
      ([DropAction.destroy Resource.pipeline, DropAction.destroy Resource.pipelineLayout,
        DropAction.destroy Resource.renderPass]
        ++ imageViewDestroyActions nImages
        ++ [DropAction.destroy Resource.swapchain, DropAction.destroy Resource.device,
            DropAction.destroy Resource.surface]
        ++ messengerDestroyActions validationEnabled
        ++ [DropAction.destroy Resource.inst])
      _ _
      (by simp [dropActions, List.append_assoc])
      (by simp [syncDestroyActions, framebufferDestroyActions]; exact hi)
      (by simp)
  | framebuffer_device i =>
    have hi : i < nImages := mem_bound_framebuffer hmem
    exact destroysBefore_split _ (preDeviceDestroys nImages)
      ([DropAction.destroy Resource.device, DropAction.destroy Resource.surface]
        ++ messengerDestroyActions validationEnabled
        ++ [DropAction.destroy Resource.inst])
      _ _
      (dropActions_device_split nImages validationEnabled)
      (by simp [preDeviceDestroys, syncDestroyActions, framebufferDestroyActions,
            imageViewDestroyActions]; exact hi)
      (by simp)
  | pipeline_renderPass =>
    exact destroysBefore_split _
      ([DropAction.deviceWaitIdle] ++ syncDestroyActions
        ++ [DropAction.destroy Resource.commandPool] ++ framebufferDestroyActions nImages
        ++ [DropAction.destroy Resource.pipeline])
      ([DropAction.destroy Resource.pipelineLayout, DropAction.destroy Resource.renderPass]
        ++ imageViewDestroyActions nImages
        ++ [DropAction.destroy Resource.swapchain, DropAction.destroy Resource.device,
            DropAction.destroy Resource.surface]
        ++ messengerDestroyActions validationEnabled
        ++ [DropAction.destroy Resource.inst])
      _ _
      (by simp [dropActions, List.append_assoc])
      (by simp [syncDestroyActions, framebufferDestroyActions])
      (by simp)
  | pipeline_pipelineLayout =>
    exact destroysBefore_split _
      ([DropAction.deviceWaitIdle] ++ syncDestroyActions
        ++ [DropAction.destroy Resource.commandPool] ++ framebufferDestroyActions nImages
        ++ [DropAction.destroy Resource.pipeline])
      ([DropAction.destroy Resource.pipelineLayout, DropAction.destroy Resource.renderPass]
        ++ imageViewDestroyActions nImages
        ++ [DropAction.destroy Resource.swapchain, DropAction.destroy Resource.device,
            DropAction.destroy Resource.surface]
        ++ messengerDestroyActions validationEnabled
        ++ [DropAction.destroy Resource.inst])
      _ _
      (by simp [dropActions, List.append_assoc])
      (by simp [syncDestroyActions, framebufferDestroyActions])
      (by simp)
  | pipeline_device =>
    exact destroysBefore_split _ (preDeviceDestroys nImages)
      ([DropAction.destroy Resource.device, DropAction.destroy Resource.surface]
        ++ messengerDestroyActions validationEnabled
        ++ [DropAction.destroy Resource.inst])
      _ _
      (dropActions_device_split nImages validationEnabled)
      (by simp [preDeviceDestroys, syncDestroyActions, framebufferDestroyActions,
            imageViewDestroyActions])
      (by simp)
  | pipelineLayout_device =>
    exact destroysBefore_split _ (preDeviceDestroys nImages)
      ([DropAction.destroy Resource.device, DropAction.destroy Resource.surface]
        ++ messengerDestroyActions validationEnabled
        ++ [DropAction.destroy Resource.inst])
      _ _
      (dropActions_device_split nImages validationEnabled)
      (by simp [preDeviceDestroys, syncDestroyActions, framebufferDestroyActions,
            imageViewDestroyActions])
      (by simp)
  | renderPass_device =>
    exact destroysBefore_split _ (preDeviceDestroys nImages)
      ([DropAction.destroy Resource.device, DropAction.destroy Resource.surface]
        ++ messengerDestroyActions validationEnabled
        ++ [DropAction.destroy Resource.inst])
      _ _
      (dropActions_device_split nImages validationEnabled)
      (by simp [preDeviceDestroys, syncDestroyActions, framebufferDestroyActions,
            imageViewDestroyActions])
      (by simp)
  | imageView_swapchain i =>
    have hi : i < nImages := mem_bound_imageView hmem
    exact destroysBefore_split _
      ([DropAction.deviceWaitIdle] ++ syncDestroyActions
        ++ [DropAction.destroy Resource.commandPool] ++ framebufferDestroyActions nImages
        ++ [DropAction.destroy Resource.pipeline, DropAction.destroy Resource.pipelineLayout,
            DropAction.destroy Resource.renderPass]
        ++ imageViewDestroyActions nImages)
      ([DropAction.destroy Resource.swapchain, DropAction.destroy Resource.device,
        DropAction.destroy Resource.surface]
        ++ messengerDestroyActions validationEnabled
        ++ [DropAction.destroy Resource.inst])
      _ _
      (by simp [dropActions, List.append_assoc])
      (by simp [syncDestroyActions, framebufferDestroyActions, imageViewDestroyActions];
          exact hi)
      (by simp)
  | imageView_device i =>
    have hi : i < nImages := mem_bound_imageView hmem
    exact destroysBefore_split _ (preDeviceDestroys nImages)
      ([DropAction.destroy Resource.device, DropAction.destroy Resource.surface]
        ++ messengerDestroyActions validationEnabled
        ++ [DropAction.destroy Resource.inst])
      _ _
      (dropActions_device_split nImages validationEnabled)
      (by simp [preDeviceDestroys, syncDestroyActions, framebufferDestroyActions,
            imageViewDestroyActions]; exact hi)
      (by simp)
  | commandPool_device =>
    exact destroysBefore_split _ (preDeviceDestroys nImages)
      ([DropAction.destroy Resource.device, DropAction.destroy Resource.surface]
        ++ messengerDestroyActions validationEnabled
        ++ [DropAction.destroy Resource.inst])
      _ _
      (dropActions_device_split nImages validationEnabled)
      (by simp [preDeviceDestroys, syncDestroyActions, framebufferDestroyActions,
            imageViewDestroyActions])
      (by simp)
  | imageAvailableSemaphore_device i =>
    have hi : i < MAX_FRAMES_IN_FLIGHT := mem_bound_iaSem hmem
    exact destroysBefore_split _ (preDeviceDestroys nImages)
      ([DropAction.destroy Resource.device, DropAction.destroy Resource.surface]
        ++ messengerDestroyActions validationEnabled
        ++ [DropAction.destroy Resource.inst])
      _ _
      (dropActions_device_split nImages validationEnabled)
      (by simp [preDeviceDestroys, syncDestroyActions, framebufferDestroyActions,
            imageViewDestroyActions]; exact hi)
      (by simp)
  | renderFinishedSemaphore_device i =>
    have hi : i < MAX_FRAMES_IN_FLIGHT := mem_bound_rfSem hmem
    exact destroysBefore_split _ (preDeviceDestroys nImages)
      ([DropAction.destroy Resource.device, DropAction.destroy Resource.surface]
        ++ messengerDestroyActions validationEnabled
        ++ [DropAction.destroy Resource.inst])
      _ _
      (dropActions_device_split nImages validationEnabled)
      (by simp [preDeviceDestroys, syncDestroyActions, framebufferDestroyActions,
            imageViewDestroyActions]; exact hi)
      (by simp)
  | inFlightFence_device i =>
    have hi : i < MAX_FRAMES_IN_FLIGHT := mem_bound_fence hmem
    exact destroysBefore_split _ (preDeviceDestroys nImages)
      ([DropAction.destroy Resource.device, DropAction.destroy Resource.surface]
        ++ messengerDestroyActions validationEnabled
        ++ [DropAction.destroy Resource.inst])
      _ _
      (dropActions_device_split nImages validationEnabled)
      (by simp [preDeviceDestroys, syncDestroyActions, framebufferDestroyActions,
            imageViewDestroyActions]; exact hi)
      (by simp)
  | swapchain_device =>
    exact destroysBefore_split _ (preDeviceDestroys nImages)
      ([DropAction.destroy Resource.device, DropAction.destroy Resource.surface]
        ++ messengerDestroyActions validationEnabled
        ++ [DropAction.destroy Resource.inst])
      _ _
      (dropActions_device_split nImages validationEnabled)
      (by simp [preDeviceDestroys, syncDestroyActions, framebufferDestroyActions,
            imageViewDestroyActions])
      (by simp)
  | swapchain_surface =>
    exact destroysBefore_split _ (preDeviceDestroys nImages)
      ([DropAction.destroy Resource.device, DropAction.destroy Resource.surface]
        ++ messengerDestroyActions validationEnabled
        ++ [DropAction.destroy Resource.inst])
      _ _
      (dropActions_device_split nImages validationEnabled)
      (by simp [preDeviceDestroys, syncDestroyActions, framebufferDestroyActions,
            imageViewDestroyActions])
      (by simp)
  | device_inst =>
    exact destroysBefore_split _
      (preDeviceDestroys nImages
        ++ [DropAction.destroy Resource.device, DropAction.destroy Resource.surface])
      (messengerDestroyActions validationEnabled ++ [DropAction.destroy Resource.inst])
      _ _
      (by rw [dropActions_device_split nImages validationEnabled]
          simp [List.append_assoc])
      (by simp)
      (by simp)
  | surface_inst =>
    exact destroysBefore_split _
      (preDeviceDestroys nImages
        ++ [DropAction.destroy Resource.device, DropAction.destroy Resource.surface])
      (messengerDestroyActions validationEnabled ++ [DropAction.destroy Resource.inst])
      _ _
      (by rw [dropActions_device_split nImages validationEnabled]
          simp [List.append_assoc])
      (by simp)
      (by simp)
  | debugMessenger_inst =>
    have hv : validationEnabled = true := mem_messenger_validation hmem
    subst hv
    exact destroysBefore_split _
      (preDeviceDestroys nImages
        ++ [DropAction.destroy Resource.device, DropAction.destroy Resource.surface]
        ++ messengerDestroyActions true)
      [DropAction.destroy Resource.inst]
      _ _
      (by rw [dropActions_device_split nImages true]
          simp [List.append_assoc])
      (by simp [messengerDestroyActions])
      (by simp)

/-- Witness for C4's amended theorem at one image with validation on:
framebuffer 0 is destroyed before image view 0. -/
theorem drop_order_amended_witness :
    DependsOn (Resource.framebuffer 0) (Resource.imageView 0) ∧
    DropAction.destroy (Resource.framebuffer 0) ∈ dropActions 1 true ∧
    destroysBefore (dropActions 1 true) (Resource.framebuffer 0) (Resource.imageView 0) :=
  ⟨DependsOn.framebuffer_imageView 0, by decide,
   (drop_order_amended 1 true).2.2 _ _ (DependsOn.framebuffer_imageView 0) (by decide)⟩
